import Mathlib

/-!
Verification of the occupancy/access-control state machine of the
hotel/hospital lighting management system (ESP32 + MFRC522 RFID reader).

The repository contains three program variants of the scan-dispatch loop:
* the relay/ownership variant (`rfid.cpp`, first program): relays with
  per-relay owner UIDs, conflict flash with explicit restore, and an
  "all seats occupied" branch on unauthorized scans;
* the LED/ownership variant (`rfid.cpp`, second program): same ledger
  logic on LEDs, conflict flash without a trailing restore write;
* the simple toggle variant (`part_000` / `part_001`): no ownership,
  each authorized card toggles its LED, unauthorized scans flash both
  LEDs with no restore.

Each variant's `loop` body (after a successful card read) is embedded as a
pure function from a state record and the scanned UID byte sequence to a
dispatch result carrying the new ledger state, the sequence of digital
writes performed on each output pin, and the log lines printed.
-/

/-- First authorized RFID card UID (`rfid1UID`), bytes 13 A3 50 11. -/
def rfid1UID : List Nat := [0x13, 0xA3, 0x50, 0x11]

/-- Second authorized RFID card UID (`rfid2UID`), bytes 03 32 C0 0D. -/
def rfid2UID : List Nat := [0x03, 0x32, 0xC0, 0x0D]

/-- `compareUID(uid1, uid2, size)`: true iff the first `size` bytes of the
two buffers agree (out-of-range reads modelled as byte 0). -/
def compareUID (uid1 uid2 : List Nat) (size : Nat) : Bool :=
  (List.range size).all fun i => uid1.getD i 0 == uid2.getD i 0

/-- `saveOwner(destination, source, size)`: copies the first `size` bytes of
`source` over the first `size` bytes of `destination`, keeping any tail. -/
def saveOwner (destination source : List Nat) (size : Nat) : List Nat :=
  ((List.range size).map fun i => source.getD i 0) ++ destination.drop size

/-- The writes performed by a `for (int i = 0; i < n; i++)` loop whose body
performs the given pin writes in order. -/
def repeatWrites : Nat → List Bool → List Bool
  | 0, _ => []
  | n + 1, w => w ++ repeatWrites n w

/-- A pin holds the value of the last `digitalWrite` applied to it. -/
def applyWrites (pin : Bool) (writes : List Bool) : Bool :=
  writes.foldl (fun _ w => w) pin

/-- Conflict flash on an occupied relay (relay variant): two off/on pulses
followed by the explicit restore write to HIGH. -/
def conflictFlashWrites : List Bool :=
  repeatWrites 2 [false, true] ++ [true]

/-- Conflict flash on an occupied LED (LED/ownership variant): two off/on
pulses, with no trailing restore write. -/
def ledConflictFlashWrites : List Bool :=
  repeatWrites 2 [false, true]

/-- Unauthorized-scan flash on one pin (ownership variants): three on/off
pulses followed by the restore write to the ledger-derived level. -/
def unauthFlashWrites (restoreTo : Bool) : List Bool :=
  repeatWrites 3 [true, false] ++ [restoreTo]

/-- Unauthorized-scan flash on one pin (toggle variant): three on/off
pulses and no restore write. -/
def toggleUnauthFlashWrites : List Bool :=
  repeatWrites 3 [true, false]

/-- Global state of the relay/ownership variant: the module-level variables
`relay1On`, `relay2On`, `relay1Owner`, `relay2Owner`, `relay1HasOwner`,
`relay2HasOwner`, together with the output levels of the two relay pins. -/
structure RelayState where
  relay1On : Bool
  relay2On : Bool
  relay1Owner : List Nat
  relay2Owner : List Nat
  relay1HasOwner : Bool
  relay2HasOwner : Bool
  pin1 : Bool
  pin2 : Bool
deriving DecidableEq

/-- State after `setup()`: both relays off, owner buffers zeroed, pins LOW. -/
def initialRelayState : RelayState :=
  { relay1On := false
    relay2On := false
    relay1Owner := [0, 0, 0, 0]
    relay2Owner := [0, 0, 0, 0]
    relay1HasOwner := false
    relay2HasOwner := false
    pin1 := false
    pin2 := false }

/-- Result of one dispatch of the relay variant: updated ledger fields, the
digital writes performed on each relay pin, and the branch's log lines. -/
structure RelayDispatchOut where
  state : RelayState
  writes1 : List Bool
  writes2 : List Bool
  logs : List String
deriving DecidableEq

/-- The branch logic of `loop()` in the relay/ownership variant, executed
after a successful card read with UID bytes `uid`. -/
def dispatchRelayOut (s : RelayState) (uid : List Nat) : RelayDispatchOut :=
  let isRelay1Owner := s.relay1HasOwner && compareUID s.relay1Owner uid 4
  let isRelay2Owner := s.relay2HasOwner && compareUID s.relay2Owner uid 4
  let isAuthorizedCard := compareUID rfid1UID uid 4 || compareUID rfid2UID uid 4
  if isRelay1Owner then
    { state := { s with relay1On := false, relay1HasOwner := false }
      writes1 := [false]
      writes2 := []
      logs := ["Relay 1 is now OFF", "User has left Seat 1."] }
  else if isRelay2Owner then
    { state := { s with relay2On := false, relay2HasOwner := false }
      writes1 := []
      writes2 := [false]
      logs := ["Relay 2 is now OFF", "User has left Seat 2."] }
  else if isAuthorizedCard then
    if compareUID rfid1UID uid 4 then
      if !s.relay1On then
        { state := { s with relay1On := true, relay1HasOwner := true,
                            relay1Owner := saveOwner s.relay1Owner uid 4 }
          writes1 := [true]
          writes2 := []
          logs := ["Relay 1 is now ON", "Seat 1 assigned to user."] }
      else
        { state := s
          writes1 := conflictFlashWrites
          writes2 := []
          logs := ["Seat 1 is already occupied."] }
    else if compareUID rfid2UID uid 4 then
      if !s.relay2On then
        { state := { s with relay2On := true, relay2HasOwner := true,
                            relay2Owner := saveOwner s.relay2Owner uid 4 }
          writes1 := []
          writes2 := [true]
          logs := ["Relay 2 is now ON", "Seat 2 assigned to user."] }
      else
        { state := s
          writes1 := []
          writes2 := conflictFlashWrites
          logs := ["Seat 2 is already occupied."] }
    else
      { state := s, writes1 := [], writes2 := [], logs := [] }
  else
    if s.relay1On && s.relay2On then
      { state := s
        writes1 := []
        writes2 := []
        logs := ["Unknown RFID tag - Access denied",
                 "All seats are currently occupied."] }
    else
      { state := s
        writes1 := unauthFlashWrites s.relay1On
        writes2 := unauthFlashWrites s.relay2On
        logs := ["Unknown RFID tag - Access denied"] }

/-- One full dispatch of the relay variant: branch logic plus the effect of
the performed digital writes on the two relay pins. -/
def dispatchRelay (s : RelayState) (uid : List Nat) : RelayState :=
  let o := dispatchRelayOut s uid
  { o.state with pin1 := applyWrites s.pin1 o.writes1
                 pin2 := applyWrites s.pin2 o.writes2 }

/-- States of the relay variant reachable from startup by any sequence of
card scans. -/
inductive RelayReachable : RelayState → Prop where
  | init : RelayReachable initialRelayState
  | step (s : RelayState) (uid : List Nat) :
      RelayReachable s → RelayReachable (dispatchRelay s uid)

/-- Global state of the LED/ownership variant (second program of
`rfid.cpp`): `led1On`, `led2On`, owner buffers and flags, and the output
levels of the two LED pins. -/
structure LedState where
  led1On : Bool
  led2On : Bool
  led1Owner : List Nat
  led2Owner : List Nat
  led1HasOwner : Bool
  led2HasOwner : Bool
  pin1 : Bool
  pin2 : Bool
deriving DecidableEq

/-- State of the LED/ownership variant after `setup()`. -/
def initialLedState : LedState :=
  { led1On := false
    led2On := false
    led1Owner := [0, 0, 0, 0]
    led2Owner := [0, 0, 0, 0]
    led1HasOwner := false
    led2HasOwner := false
    pin1 := false
    pin2 := false }

/-- Result of one dispatch of the LED/ownership variant. -/
structure LedDispatchOut where
  state : LedState
  writes1 : List Bool
  writes2 : List Bool
  logs : List String
deriving DecidableEq

/-- The branch logic of `loop()` in the LED/ownership variant.  It differs
from the relay variant only in the conflict flash, which ends on the last
pulse's HIGH write with no explicit restore write after the loop. -/
def dispatchLedOut (s : LedState) (uid : List Nat) : LedDispatchOut :=
  let isLed1Owner := s.led1HasOwner && compareUID s.led1Owner uid 4
  let isLed2Owner := s.led2HasOwner && compareUID s.led2Owner uid 4
  let isAuthorizedCard := compareUID rfid1UID uid 4 || compareUID rfid2UID uid 4
  if isLed1Owner then
    { state := { s with led1On := false, led1HasOwner := false }
      writes1 := [false]
      writes2 := []
      logs := ["LED 1 is now OFF", "User has left Seat 1."] }
  else if isLed2Owner then
    { state := { s with led2On := false, led2HasOwner := false }
      writes1 := []
      writes2 := [false]
      logs := ["LED 2 is now OFF", "User has left Seat 2."] }
  else if isAuthorizedCard then
    if compareUID rfid1UID uid 4 then
      if !s.led1On then
        { state := { s with led1On := true, led1HasOwner := true,
                            led1Owner := saveOwner s.led1Owner uid 4 }
          writes1 := [true]
          writes2 := []
          logs := ["LED 1 is now ON", "Seat 1 assigned to user."] }
      else
        { state := s
          writes1 := ledConflictFlashWrites
          writes2 := []
          logs := ["Seat 1 is already occupied."] }
    else if compareUID rfid2UID uid 4 then
      if !s.led2On then
        { state := { s with led2On := true, led2HasOwner := true,
                            led2Owner := saveOwner s.led2Owner uid 4 }
          writes1 := []
          writes2 := [true]
          logs := ["LED 2 is now ON", "Seat 2 assigned to user."] }
      else
        { state := s
          writes1 := []
          writes2 := ledConflictFlashWrites
          logs := ["Seat 2 is already occupied."] }
    else
      { state := s, writes1 := [], writes2 := [], logs := [] }
  else
    if s.led1On && s.led2On then
      { state := s
        writes1 := []
        writes2 := []
        logs := ["Unknown RFID tag - Access denied",
                 "All seats are currently occupied."] }
    else
      { state := s
        writes1 := unauthFlashWrites s.led1On
        writes2 := unauthFlashWrites s.led2On
        logs := ["Unknown RFID tag - Access denied"] }

/-- One full dispatch of the LED/ownership variant, pin effects included. -/
def dispatchLed (s : LedState) (uid : List Nat) : LedState :=
  let o := dispatchLedOut s uid
  { o.state with pin1 := applyWrites s.pin1 o.writes1
                 pin2 := applyWrites s.pin2 o.writes2 }

/-- Global state of the simple toggle variant (`part_000` / `part_001`):
`led1On`, `led2On` and the two LED pin levels; there is no ownership. -/
structure ToggleState where
  led1On : Bool
  led2On : Bool
  pin1 : Bool
  pin2 : Bool
deriving DecidableEq

/-- State of the toggle variant after `setup()`. -/
def initialToggleState : ToggleState :=
  { led1On := false, led2On := false, pin1 := false, pin2 := false }

/-- Result of one dispatch of the toggle variant. -/
structure ToggleDispatchOut where
  state : ToggleState
  writes1 : List Bool
  writes2 : List Bool
  logs : List String
deriving DecidableEq

/-- The branch logic of `loop()` in the toggle variant: each authorized
card toggles its LED; an unauthorized scan flashes both LEDs three times
and performs no restore write afterwards. -/
def dispatchToggleOut (s : ToggleState) (uid : List Nat) : ToggleDispatchOut :=
  if compareUID rfid1UID uid 4 then
    { state := { s with led1On := !s.led1On }
      writes1 := [!s.led1On]
      writes2 := []
      logs := if !s.led1On then
                ["LED 1 is now ON", "Seat 1 assigned to user."]
              else
                ["LED 1 is now OFF", "User has left Seat 1."] }
  else if compareUID rfid2UID uid 4 then
    { state := { s with led2On := !s.led2On }
      writes1 := []
      writes2 := [!s.led2On]
      logs := if !s.led2On then
                ["LED 2 is now ON", "Seat 2 assigned to user."]
              else
                ["LED 2 is now OFF", "User has left Seat 2."] }
  else
    { state := s
      writes1 := toggleUnauthFlashWrites
      writes2 := toggleUnauthFlashWrites
      logs := ["Unknown RFID tag - Access denied"] }

/-- One full dispatch of the toggle variant, pin effects included. -/
def dispatchToggle (s : ToggleState) (uid : List Nat) : ToggleState :=
  let o := dispatchToggleOut s uid
  { o.state with pin1 := applyWrites s.pin1 o.writes1
                 pin2 := applyWrites s.pin2 o.writes2 }

/-- `ownerIs` for relay 1: the ownership test of the dispatcher, exactly as
the guard `relay1HasOwner && compareUID(relay1Owner, uid, 4)`. -/
def ownerIs1 (s : RelayState) (id : List Nat) : Bool :=
  s.relay1HasOwner && compareUID s.relay1Owner id 4

/-- `ownerIs` for relay 2. -/
def ownerIs2 (s : RelayState) (id : List Nat) : Bool :=
  s.relay2HasOwner && compareUID s.relay2Owner id 4

/-- Guard of the "Seat 1 is already occupied" conflict branch of the relay
variant: the scan is not a release for either relay, the card is
authorized, it matches `rfid1UID`, and relay 1 is already on. -/
def conflictGuard1 (s : RelayState) (uid : List Nat) : Bool :=
  !(s.relay1HasOwner && compareUID s.relay1Owner uid 4) &&
  !(s.relay2HasOwner && compareUID s.relay2Owner uid 4) &&
  (compareUID rfid1UID uid 4 || compareUID rfid2UID uid 4) &&
  compareUID rfid1UID uid 4 && s.relay1On

/-- Guard of the "Seat 2 is already occupied" conflict branch of the relay
variant. -/
def conflictGuard2 (s : RelayState) (uid : List Nat) : Bool :=
  !(s.relay1HasOwner && compareUID s.relay1Owner uid 4) &&
  !(s.relay2HasOwner && compareUID s.relay2Owner uid 4) &&
  (compareUID rfid1UID uid 4 || compareUID rfid2UID uid 4) &&
  !(compareUID rfid1UID uid 4) && compareUID rfid2UID uid 4 && s.relay2On

/-- Modelled from the spec: the AlertOverlay transient state of section 3
(the display/alert-overlay component is not among the provided source
files; only the spec describes it). -/
structure AlertOverlay where
  active : Bool
  line1 : String
  line2 : String
  raisedAt : Nat
deriving DecidableEq

/-- Modelled from the spec: ALERT_DURATION, 3000 ms in the reference. -/
def ALERT_DURATION : Nat := 3000

/-- Modelled from the spec: `raiseAlert(line1, line2)` sets the overlay
active with `raisedAt = now`, unconditionally overwriting any active
alert. -/
def raiseAlert (_a : AlertOverlay) (l1 l2 : String) (now : Nat) : AlertOverlay :=
  { active := true, line1 := l1, line2 := l2, raisedAt := now }

/-- Modelled from the spec: `tick(now)` clears `active` once
`now - raisedAt >= ALERT_DURATION`. -/
def tick (a : AlertOverlay) (now : Nat) : AlertOverlay :=
  if a.active ∧ ALERT_DURATION ≤ now - a.raisedAt then
    { a with active := false }
  else
    a

/-- Modelled from the spec: rendering precedence — while `active`, the
alert view is rendered exclusively; otherwise the normal status view. -/
def render (a : AlertOverlay) (statusLines : List String) : List String :=
  if a.active then [a.line1, a.line2] else statusLines

lemma compareUID_four (a b : List Nat) :
    compareUID a b 4 = true ↔
      (a.getD 0 0 = b.getD 0 0 ∧ a.getD 1 0 = b.getD 1 0 ∧
       a.getD 2 0 = b.getD 2 0 ∧ a.getD 3 0 = b.getD 3 0) := by
  unfold compareUID
  rw [show List.range 4 = [0, 1, 2, 3] from rfl]
  simp [List.all_cons, and_assoc]

lemma saveOwner_four (d uid : List Nat) :
    saveOwner d uid 4
      = [uid.getD 0 0, uid.getD 1 0, uid.getD 2 0, uid.getD 3 0] ++ d.drop 4 := rfl

/-- When the scanned UID's first four bytes match `rfid1UID`, the owner
buffer saved in the claim branch is exactly `rfid1UID`. -/
lemma saveOwner_of_cmp1 (d uid : List Nat) (hd : d.length = 4)
    (h : compareUID rfid1UID uid 4 = true) : saveOwner d uid 4 = rfid1UID := by
  obtain ⟨h0, h1, h2, h3⟩ := (compareUID_four rfid1UID uid).mp h
  rw [saveOwner_four, ← h0, ← h1, ← h2, ← h3, ← hd, List.drop_length]
  rfl

/-- When the scanned UID's first four bytes match `rfid2UID`, the owner
buffer saved in the claim branch is exactly `rfid2UID`. -/
lemma saveOwner_of_cmp2 (d uid : List Nat) (hd : d.length = 4)
    (h : compareUID rfid2UID uid 4 = true) : saveOwner d uid 4 = rfid2UID := by
  obtain ⟨h0, h1, h2, h3⟩ := (compareUID_four rfid2UID uid).mp h
  rw [saveOwner_four, ← h0, ← h1, ← h2, ← h3, ← hd, List.drop_length]
  rfl

/-- The two authorized UIDs differ in their first byte, so no scanned UID
matches both. -/
lemma cmp_not_both (uid : List Nat)
    (h1 : compareUID rfid1UID uid 4 = true)
    (h2 : compareUID rfid2UID uid 4 = true) : False := by
  obtain ⟨a0, -, -, -⟩ := (compareUID_four rfid1UID uid).mp h1
  obtain ⟨b0, -, -, -⟩ := (compareUID_four rfid2UID uid).mp h2
  rw [show rfid1UID.getD 0 0 = 19 from rfl] at a0
  rw [show rfid2UID.getD 0 0 = 3 from rfl] at b0
  omega

/-- Inductive invariant of the relay variant: the ownership flag of each
relay mirrors its on/off flag, and whenever a relay has an owner the owner
buffer is the statically authorized UID of that relay (and stays a 4-byte
buffer). -/
def RelayInv (s : RelayState) : Prop :=
  s.relay1HasOwner = s.relay1On ∧ s.relay2HasOwner = s.relay2On ∧
  (s.relay1HasOwner = true → s.relay1Owner = rfid1UID) ∧
  (s.relay2HasOwner = true → s.relay2Owner = rfid2UID) ∧
  s.relay1Owner.length = 4 ∧ s.relay2Owner.length = 4

lemma relayInv_init : RelayInv initialRelayState := by
  refine ⟨rfl, rfl, ?_, ?_, rfl, rfl⟩ <;> intro h <;> simp [initialRelayState] at h

lemma relayInv_step (s : RelayState) (uid : List Nat) (h : RelayInv s) :
    RelayInv (dispatchRelay s uid) := by
  obtain ⟨h1, h2, h3, h4, h5, h6⟩ := h
  show RelayInv ((dispatchRelayOut s uid).state)
  unfold dispatchRelayOut
  by_cases o1 : (s.relay1HasOwner && compareUID s.relay1Owner uid 4) = true
  · rw [if_pos o1]
    refine ⟨rfl, h2, ?_, h4, h5, h6⟩
    intro hc; simp at hc
  · rw [if_neg o1]
    by_cases o2 : (s.relay2HasOwner && compareUID s.relay2Owner uid 4) = true
    · rw [if_pos o2]
      refine ⟨h1, rfl, h3, ?_, h5, h6⟩
      intro hc; simp at hc
    · rw [if_neg o2]
      by_cases c1 : compareUID rfid1UID uid 4 = true
      · rw [if_pos (by simp [c1]), if_pos c1]
        by_cases r1 : s.relay1On = true
        · rw [if_neg (by simp [r1])]
          exact ⟨h1, h2, h3, h4, h5, h6⟩
        · rw [if_pos (by simp [Bool.not_eq_true] at r1 ⊢; exact r1)]
          refine ⟨rfl, h2, fun _ => saveOwner_of_cmp1 _ _ h5 c1, h4, ?_, h6⟩
          rw [saveOwner_of_cmp1 _ _ h5 c1]; rfl
      · by_cases c2 : compareUID rfid2UID uid 4 = true
        · rw [if_pos (by simp [c2]), if_neg c1, if_pos c2]
          by_cases r2 : s.relay2On = true
          · rw [if_neg (by simp [r2])]
            exact ⟨h1, h2, h3, h4, h5, h6⟩
          · rw [if_pos (by simp [Bool.not_eq_true] at r2 ⊢; exact r2)]
            refine ⟨h1, rfl, h3, fun _ => saveOwner_of_cmp2 _ _ h6 c2, h5, ?_⟩
            rw [saveOwner_of_cmp2 _ _ h6 c2]; rfl
        · rw [if_neg (by simp [c1, c2])]
          by_cases b : (s.relay1On && s.relay2On) = true
          · rw [if_pos b]
            exact ⟨h1, h2, h3, h4, h5, h6⟩
          · rw [if_neg b]
            exact ⟨h1, h2, h3, h4, h5, h6⟩

/-- Every reachable state of the relay variant satisfies the invariant. -/
lemma relayReachable_inv (s : RelayState) (h : RelayReachable s) : RelayInv s := by
  induction h with
  | init => exact relayInv_init
  | step s uid _ ih => exact relayInv_step s uid ih

lemma applyWrites_nil (p : Bool) : applyWrites p [] = p := rfl

lemma applyWrites_single (p b : Bool) : applyWrites p [b] = b := rfl

lemma applyWrites_conflict (p : Bool) : applyWrites p conflictFlashWrites = true := rfl

lemma applyWrites_ledConflict (p : Bool) :
    applyWrites p ledConflictFlashWrites = true := rfl

lemma applyWrites_unauth (p b : Bool) : applyWrites p (unauthFlashWrites b) = b := rfl

lemma applyWrites_toggleUnauth (p : Bool) :
    applyWrites p toggleUnauthFlashWrites = false := rfl

lemma dispatchRelay_state (s : RelayState) (uid : List Nat) :
    dispatchRelay s uid
      = { (dispatchRelayOut s uid).state with
            pin1 := applyWrites s.pin1 (dispatchRelayOut s uid).writes1
            pin2 := applyWrites s.pin2 (dispatchRelayOut s uid).writes2 } := rfl

lemma dispatchLed_state (s : LedState) (uid : List Nat) :
    dispatchLed s uid
      = { (dispatchLedOut s uid).state with
            pin1 := applyWrites s.pin1 (dispatchLedOut s uid).writes1
            pin2 := applyWrites s.pin2 (dispatchLedOut s uid).writes2 } := rfl

lemma dispatchRelayOut_release1 (s : RelayState) (uid : List Nat)
    (o1 : (s.relay1HasOwner && compareUID s.relay1Owner uid 4) = true) :
    dispatchRelayOut s uid
      = { state := { s with relay1On := false, relay1HasOwner := false }
          writes1 := [false]
          writes2 := []
          logs := ["Relay 1 is now OFF", "User has left Seat 1."] } := by
  unfold dispatchRelayOut
  rw [if_pos o1]

lemma dispatchRelayOut_release2 (s : RelayState) (uid : List Nat)
    (o1 : (s.relay1HasOwner && compareUID s.relay1Owner uid 4) = false)
    (o2 : (s.relay2HasOwner && compareUID s.relay2Owner uid 4) = true) :
    dispatchRelayOut s uid
      = { state := { s with relay2On := false, relay2HasOwner := false }
          writes1 := []
          writes2 := [false]
          logs := ["Relay 2 is now OFF", "User has left Seat 2."] } := by
  unfold dispatchRelayOut
  rw [if_neg (by simp [o1]), if_pos o2]

lemma dispatchRelayOut_claim1 (s : RelayState) (uid : List Nat)
    (o1 : (s.relay1HasOwner && compareUID s.relay1Owner uid 4) = false)
    (o2 : (s.relay2HasOwner && compareUID s.relay2Owner uid 4) = false)
    (c1 : compareUID rfid1UID uid 4 = true)
    (hf : s.relay1On = false) :
    dispatchRelayOut s uid
      = { state := { s with relay1On := true, relay1HasOwner := true,
                            relay1Owner := saveOwner s.relay1Owner uid 4 }
          writes1 := [true]
          writes2 := []
          logs := ["Relay 1 is now ON", "Seat 1 assigned to user."] } := by
  unfold dispatchRelayOut
  rw [if_neg (by simp [o1]), if_neg (by simp [o2]), if_pos (by simp [c1]),
      if_pos c1, if_pos (by simp [hf])]

lemma dispatchRelayOut_conflict1 (s : RelayState) (uid : List Nat)
    (o1 : (s.relay1HasOwner && compareUID s.relay1Owner uid 4) = false)
    (o2 : (s.relay2HasOwner && compareUID s.relay2Owner uid 4) = false)
    (c1 : compareUID rfid1UID uid 4 = true)
    (ho : s.relay1On = true) :
    dispatchRelayOut s uid
      = { state := s
          writes1 := conflictFlashWrites
          writes2 := []
          logs := ["Seat 1 is already occupied."] } := by
  unfold dispatchRelayOut
  rw [if_neg (by simp [o1]), if_neg (by simp [o2]), if_pos (by simp [c1]),
      if_pos c1, if_neg (by simp [ho])]

lemma dispatchRelayOut_claim2 (s : RelayState) (uid : List Nat)
    (o1 : (s.relay1HasOwner && compareUID s.relay1Owner uid 4) = false)
    (o2 : (s.relay2HasOwner && compareUID s.relay2Owner uid 4) = false)
    (c1 : compareUID rfid1UID uid 4 = false)
    (c2 : compareUID rfid2UID uid 4 = true)
    (hf : s.relay2On = false) :
    dispatchRelayOut s uid
      = { state := { s with relay2On := true, relay2HasOwner := true,
                            relay2Owner := saveOwner s.relay2Owner uid 4 }
          writes1 := []
          writes2 := [true]
          logs := ["Relay 2 is now ON", "Seat 2 assigned to user."] } := by
  unfold dispatchRelayOut
  rw [if_neg (by simp [o1]), if_neg (by simp [o2]), if_pos (by simp [c2]),
      if_neg (by simp [c1]), if_pos c2, if_pos (by simp [hf])]

lemma dispatchRelayOut_conflict2 (s : RelayState) (uid : List Nat)
    (o1 : (s.relay1HasOwner && compareUID s.relay1Owner uid 4) = false)
    (o2 : (s.relay2HasOwner && compareUID s.relay2Owner uid 4) = false)
    (c1 : compareUID rfid1UID uid 4 = false)
    (c2 : compareUID rfid2UID uid 4 = true)
    (ho : s.relay2On = true) :
    dispatchRelayOut s uid
      = { state := s
          writes1 := []
          writes2 := conflictFlashWrites
          logs := ["Seat 2 is already occupied."] } := by
  unfold dispatchRelayOut
  rw [if_neg (by simp [o1]), if_neg (by simp [o2]), if_pos (by simp [c2]),
      if_neg (by simp [c1]), if_pos c2, if_neg (by simp [ho])]

lemma dispatchRelayOut_allOccupied (s : RelayState) (uid : List Nat)
    (c1 : compareUID rfid1UID uid 4 = false)
    (c2 : compareUID rfid2UID uid 4 = false)
    (o1 : (s.relay1HasOwner && compareUID s.relay1Owner uid 4) = false)
    (o2 : (s.relay2HasOwner && compareUID s.relay2Owner uid 4) = false)
    (hb : (s.relay1On && s.relay2On) = true) :
    dispatchRelayOut s uid
      = { state := s
          writes1 := []
          writes2 := []
          logs := ["Unknown RFID tag - Access denied",
                   "All seats are currently occupied."] } := by
  unfold dispatchRelayOut
  rw [if_neg (by simp [o1]), if_neg (by simp [o2]), if_neg (by simp [c1, c2]),
      if_pos hb]

lemma dispatchRelayOut_unauthFlash (s : RelayState) (uid : List Nat)
    (c1 : compareUID rfid1UID uid 4 = false)
    (c2 : compareUID rfid2UID uid 4 = false)
    (o1 : (s.relay1HasOwner && compareUID s.relay1Owner uid 4) = false)
    (o2 : (s.relay2HasOwner && compareUID s.relay2Owner uid 4) = false)
    (hb : (s.relay1On && s.relay2On) = false) :
    dispatchRelayOut s uid
      = { state := s
          writes1 := unauthFlashWrites s.relay1On
          writes2 := unauthFlashWrites s.relay2On
          logs := ["Unknown RFID tag - Access denied"] } := by
  unfold dispatchRelayOut
  rw [if_neg (by simp [o1]), if_neg (by simp [o2]), if_neg (by simp [c1, c2]),
      if_neg (by simp [hb])]

/-- In the relay variant, every dispatch branch that performs writes on a
relay pin leaves that pin at the ledger-derived level of its relay. -/
lemma relay_pins_match (s : RelayState) (uid : List Nat) :
    ((dispatchRelayOut s uid).writes1 ≠ [] →
      (dispatchRelay s uid).pin1 = (dispatchRelay s uid).relay1On) ∧
    ((dispatchRelayOut s uid).writes2 ≠ [] →
      (dispatchRelay s uid).pin2 = (dispatchRelay s uid).relay2On) := by
  by_cases o1 : (s.relay1HasOwner && compareUID s.relay1Owner uid 4) = true
  · rw [dispatchRelay_state, dispatchRelayOut_release1 s uid o1]
    exact ⟨fun _ => rfl, fun h => absurd rfl h⟩
  · have o1' : (s.relay1HasOwner && compareUID s.relay1Owner uid 4) = false := by
      simpa using o1
    by_cases o2 : (s.relay2HasOwner && compareUID s.relay2Owner uid 4) = true
    · rw [dispatchRelay_state, dispatchRelayOut_release2 s uid o1' o2]
      exact ⟨fun h => absurd rfl h, fun _ => rfl⟩
    · have o2' : (s.relay2HasOwner && compareUID s.relay2Owner uid 4) = false := by
        simpa using o2
      by_cases c1 : compareUID rfid1UID uid 4 = true
      · by_cases r1 : s.relay1On = true
        · rw [dispatchRelay_state, dispatchRelayOut_conflict1 s uid o1' o2' c1 r1]
          exact ⟨fun _ => r1.symm, fun h => absurd rfl h⟩
        · have r1' : s.relay1On = false := by simpa using r1
          rw [dispatchRelay_state, dispatchRelayOut_claim1 s uid o1' o2' c1 r1']
          exact ⟨fun _ => rfl, fun h => absurd rfl h⟩
      · have c1' : compareUID rfid1UID uid 4 = false := by simpa using c1
        by_cases c2 : compareUID rfid2UID uid 4 = true
        · by_cases r2 : s.relay2On = true
          · rw [dispatchRelay_state, dispatchRelayOut_conflict2 s uid o1' o2' c1' c2 r2]
            exact ⟨fun h => absurd rfl h, fun _ => r2.symm⟩
          · have r2' : s.relay2On = false := by simpa using r2
            rw [dispatchRelay_state, dispatchRelayOut_claim2 s uid o1' o2' c1' c2 r2']
            exact ⟨fun h => absurd rfl h, fun _ => rfl⟩
        · have c2' : compareUID rfid2UID uid 4 = false := by simpa using c2
          by_cases hb : (s.relay1On && s.relay2On) = true
          · rw [dispatchRelay_state,
                dispatchRelayOut_allOccupied s uid c1' c2' o1' o2' hb]
            exact ⟨fun h => absurd rfl h, fun h => absurd rfl h⟩
          · have hb' : (s.relay1On && s.relay2On) = false := by simpa using hb
            rw [dispatchRelay_state,
                dispatchRelayOut_unauthFlash s uid c1' c2' o1' o2' hb']
            exact ⟨fun _ => rfl, fun _ => rfl⟩

/-- In the LED/ownership variant, every dispatch branch that performs
writes on an LED pin leaves that pin at the ledger-derived level: the
conflict flash ends on a HIGH write and the LED is on, and the
unauthorized flash ends on the restore write. -/
lemma led_pins_match (t : LedState) (uid : List Nat) :
    ((dispatchLedOut t uid).writes1 ≠ [] →
      (dispatchLed t uid).pin1 = (dispatchLed t uid).led1On) ∧
    ((dispatchLedOut t uid).writes2 ≠ [] →
      (dispatchLed t uid).pin2 = (dispatchLed t uid).led2On) := by
  rw [dispatchLed_state]
  unfold dispatchLedOut
  by_cases o1 : (t.led1HasOwner && compareUID t.led1Owner uid 4) = true
  · rw [if_pos o1]
    exact ⟨fun _ => rfl, fun h => absurd rfl h⟩
  · rw [if_neg o1]
    by_cases o2 : (t.led2HasOwner && compareUID t.led2Owner uid 4) = true
    · rw [if_pos o2]
      exact ⟨fun h => absurd rfl h, fun _ => rfl⟩
    · rw [if_neg o2]
      by_cases c1 : compareUID rfid1UID uid 4 = true
      · rw [if_pos (by simp [c1]), if_pos c1]
        by_cases r1 : t.led1On = true
        · rw [if_neg (by simp [r1])]
          exact ⟨fun _ => r1.symm, fun h => absurd rfl h⟩
        · have r1' : t.led1On = false := by simpa using r1
          rw [if_pos (by simp [r1'])]
          exact ⟨fun _ => rfl, fun h => absurd rfl h⟩
      · by_cases c2 : compareUID rfid2UID uid 4 = true
        · rw [if_pos (by simp [c2]), if_neg c1, if_pos c2]
          by_cases r2 : t.led2On = true
          · rw [if_neg (by simp [r2])]
            exact ⟨fun h => absurd rfl h, fun _ => r2.symm⟩
          · have r2' : t.led2On = false := by simpa using r2
            rw [if_pos (by simp [r2'])]
            exact ⟨fun h => absurd rfl h, fun _ => rfl⟩
        · rw [if_neg (by simp [c1, c2] : ¬(compareUID rfid1UID uid 4 || compareUID rfid2UID uid 4) = true)]
          by_cases hb : (t.led1On && t.led2On) = true
          · rw [if_pos hb]
            exact ⟨fun h => absurd rfl h, fun h => absurd rfl h⟩
          · rw [if_neg hb]
            exact ⟨fun _ => rfl, fun _ => rfl⟩

/-- C1: if resource R is Occupied with owner A and an identity B that is
authorized for R but differs from A (in the compared first four bytes) is
scanned, the dispatch leaves R occupied with the same owner bytes and the
actuator for R ends HIGH (stated for both resources). -/
theorem conflict_preserves_state (s : RelayState) (uid : List Nat) :
    (s.relay1On = true → s.relay1HasOwner = true → s.pin1 = true →
      compareUID rfid1UID uid 4 = true → compareUID s.relay1Owner uid 4 = false →
      (dispatchRelay s uid).relay1On = true ∧
      (dispatchRelay s uid).relay1HasOwner = true ∧
      (dispatchRelay s uid).relay1Owner = s.relay1Owner ∧
      (dispatchRelay s uid).pin1 = true) ∧
    (s.relay2On = true → s.relay2HasOwner = true → s.pin2 = true →
      compareUID rfid2UID uid 4 = true → compareUID s.relay2Owner uid 4 = false →
      (dispatchRelay s uid).relay2On = true ∧
      (dispatchRelay s uid).relay2HasOwner = true ∧
      (dispatchRelay s uid).relay2Owner = s.relay2Owner ∧
      (dispatchRelay s uid).pin2 = true) := by
  constructor
  · intro hOn hHas hPin hAuth hDiff
    have o1 : (s.relay1HasOwner && compareUID s.relay1Owner uid 4) = false := by
      simp [hDiff]
    by_cases o2 : (s.relay2HasOwner && compareUID s.relay2Owner uid 4) = true
    · rw [dispatchRelay_state, dispatchRelayOut_release2 s uid o1 o2]
      exact ⟨hOn, hHas, rfl, hPin⟩
    · have o2' : (s.relay2HasOwner && compareUID s.relay2Owner uid 4) = false := by
        simpa using o2
      rw [dispatchRelay_state, dispatchRelayOut_conflict1 s uid o1 o2' hAuth hOn]
      exact ⟨hOn, hHas, rfl, rfl⟩
  · intro hOn hHas hPin hAuth hDiff
    have c1 : compareUID rfid1UID uid 4 = false := by
      cases hc : compareUID rfid1UID uid 4
      · rfl
      · exact (cmp_not_both uid hc hAuth).elim
    have o2 : (s.relay2HasOwner && compareUID s.relay2Owner uid 4) = false := by
      simp [hDiff]
    by_cases o1 : (s.relay1HasOwner && compareUID s.relay1Owner uid 4) = true
    · rw [dispatchRelay_state, dispatchRelayOut_release1 s uid o1]
      exact ⟨hOn, hHas, rfl, hPin⟩
    · have o1' : (s.relay1HasOwner && compareUID s.relay1Owner uid 4) = false := by
        simpa using o1
      rw [dispatchRelay_state, dispatchRelayOut_conflict2 s uid o1' o2 c1 hAuth hOn]
      exact ⟨hOn, hHas, rfl, rfl⟩

/-- Witness for C1: relay 1 occupied by the second card's UID, first card
(authorized for relay 1) scans; state and actuator are preserved. -/
theorem conflict_preserves_state_witness :
    (({ relay1On := true, relay2On := false, relay1Owner := rfid2UID,
        relay2Owner := [0, 0, 0, 0], relay1HasOwner := true,
        relay2HasOwner := false, pin1 := true, pin2 := false } : RelayState).relay1On
          = true) ∧
    (dispatchRelay
        { relay1On := true, relay2On := false, relay1Owner := rfid2UID,
          relay2Owner := [0, 0, 0, 0], relay1HasOwner := true,
          relay2HasOwner := false, pin1 := true, pin2 := false } rfid1UID).relay1On
        = true ∧
    (dispatchRelay
        { relay1On := true, relay2On := false, relay1Owner := rfid2UID,
          relay2Owner := [0, 0, 0, 0], relay1HasOwner := true,
          relay2HasOwner := false, pin1 := true, pin2 := false } rfid1UID).relay1Owner
        = rfid2UID ∧
    (dispatchRelay
        { relay1On := true, relay2On := false, relay1Owner := rfid2UID,
          relay2Owner := [0, 0, 0, 0], relay1HasOwner := true,
          relay2HasOwner := false, pin1 := true, pin2 := false } rfid1UID).pin1
        = true := by
  refine ⟨by decide, ?_, ?_, ?_⟩
  · exact ((conflict_preserves_state _ rfid1UID).1 (by decide) (by decide)
      (by decide) (by decide) (by decide)).1
  · exact ((conflict_preserves_state _ rfid1UID).1 (by decide) (by decide)
      (by decide) (by decide) (by decide)).2.2.1
  · exact ((conflict_preserves_state _ rfid1UID).1 (by decide) (by decide)
      (by decide) (by decide) (by decide)).2.2.2

/-- C3 (amended): in the two ownership variants, after any dispatch branch
that performed writes on an actuator pin — in particular after both flash
sequences — the pin's final level equals the ledger-derived state of its
resource. -/
theorem restoration_after_flash (s : RelayState) (t : LedState) (uid : List Nat) :
    ((dispatchRelayOut s uid).writes1 ≠ [] →
      (dispatchRelay s uid).pin1 = (dispatchRelay s uid).relay1On) ∧
    ((dispatchRelayOut s uid).writes2 ≠ [] →
      (dispatchRelay s uid).pin2 = (dispatchRelay s uid).relay2On) ∧
    ((dispatchLedOut t uid).writes1 ≠ [] →
      (dispatchLed t uid).pin1 = (dispatchLed t uid).led1On) ∧
    ((dispatchLedOut t uid).writes2 ≠ [] →
      (dispatchLed t uid).pin2 = (dispatchLed t uid).led2On) :=
  ⟨(relay_pins_match s uid).1, (relay_pins_match s uid).2,
   (led_pins_match t uid).1, (led_pins_match t uid).2⟩

/-- Witness for C3's amended theorem: the conflict flash on an occupied
relay 1 really runs and leaves the pin at the occupied (HIGH) level. -/
theorem restoration_after_flash_witness :
    (dispatchRelayOut
        { relay1On := true, relay2On := false, relay1Owner := rfid2UID,
          relay2Owner := [0, 0, 0, 0], relay1HasOwner := true,
          relay2HasOwner := false, pin1 := true, pin2 := false } rfid1UID).writes1
        ≠ ([] : List Bool) ∧
    (dispatchRelay
        { relay1On := true, relay2On := false, relay1Owner := rfid2UID,
          relay2Owner := [0, 0, 0, 0], relay1HasOwner := true,
          relay2HasOwner := false, pin1 := true, pin2 := false } rfid1UID).pin1
      = (dispatchRelay
        { relay1On := true, relay2On := false, relay1Owner := rfid2UID,
          relay2Owner := [0, 0, 0, 0], relay1HasOwner := true,
          relay2HasOwner := false, pin1 := true, pin2 := false } rfid1UID).relay1On := by
  refine ⟨by decide, ?_⟩
  exact (restoration_after_flash _ initialLedState rfid1UID).1 (by decide)

/-- Counterexample for C3 as stated: in the toggle variant
(`part_000`/`part_001`), with seat 1 occupied and seat 2 free, an
unauthorized scan runs the flash sequence on both LEDs and leaves LED 1
LOW although its ledger state is occupied — the flashed actuator's final
state differs from the ledger-derived state. -/
theorem restoration_counterexample :
    (dispatchToggleOut
        { led1On := true, led2On := false, pin1 := true, pin2 := false }
        [0, 0, 0, 0]).writes1 = toggleUnauthFlashWrites ∧
    (dispatchToggle
        { led1On := true, led2On := false, pin1 := true, pin2 := false }
        [0, 0, 0, 0]).led1On = true ∧
    (dispatchToggle
        { led1On := true, led2On := false, pin1 := true, pin2 := false }
        [0, 0, 0, 0]).pin1 = false := by
  decide

/-- C6 (amended): from startup, claiming then releasing with the same
identity restores the occupied flag, the ownership flag and the actuator
of the resource to the initial free/off state; the stored owner byte
buffer, however, retains the identity's UID rather than the initial
zeros. -/
theorem roundtrip_restores_free_state :
    ((dispatchRelay (dispatchRelay initialRelayState rfid1UID) rfid1UID).relay1On
        = false ∧
     (dispatchRelay (dispatchRelay initialRelayState rfid1UID) rfid1UID).relay1HasOwner
        = false ∧
     (dispatchRelay (dispatchRelay initialRelayState rfid1UID) rfid1UID).pin1
        = false ∧
     (dispatchRelay (dispatchRelay initialRelayState rfid1UID) rfid1UID).relay1Owner
        = rfid1UID) ∧
    ((dispatchRelay (dispatchRelay initialRelayState rfid2UID) rfid2UID).relay2On
        = false ∧
     (dispatchRelay (dispatchRelay initialRelayState rfid2UID) rfid2UID).relay2HasOwner
        = false ∧
     (dispatchRelay (dispatchRelay initialRelayState rfid2UID) rfid2UID).pin2
        = false ∧
     (dispatchRelay (dispatchRelay initialRelayState rfid2UID) rfid2UID).relay2Owner
        = rfid2UID) := by
  decide

/-- Counterexample for C6 as stated: after the claim/release round trip the
resource's stored owner bytes are not the initial `[0,0,0,0]`, so the
entire state (owner identity bytes included) does not return to exactly
the initial state. -/
theorem roundtrip_owner_bytes_counterexample :
    (dispatchRelay (dispatchRelay initialRelayState rfid1UID) rfid1UID).relay1Owner
      ≠ initialRelayState.relay1Owner := by
  decide

lemma getD_take (l : List Nat) (n i : Nat) (hi : i < n) :
    (l.take n).getD i 0 = l.getD i 0 := by
  induction l generalizing n i with
  | nil => simp
  | cons a t ih =>
    cases n with
    | zero => omega
    | succ n =>
      cases i with
      | zero => rfl
      | succ i => simpa using ih n i (by omega)

lemma list_eq_of_length_four (l1 l2 : List Nat) (h1 : l1.length = 4)
    (h2 : l2.length = 4) (h : ∀ i, i < 4 → l1.getD i 0 = l2.getD i 0) :
    l1 = l2 := by
  obtain ⟨a, b, c, d, rfl⟩ : ∃ a b c d, l1 = [a, b, c, d] := by
    rcases l1 with _ | ⟨a, _ | ⟨b, _ | ⟨c, _ | ⟨d, rest⟩⟩⟩⟩ <;> simp at h1
    exact ⟨a, b, c, d, by rw [h1]⟩
  obtain ⟨e, f, g, k, rfl⟩ : ∃ e f g k, l2 = [e, f, g, k] := by
    rcases l2 with _ | ⟨e, _ | ⟨f, _ | ⟨g, _ | ⟨k, rest⟩⟩⟩⟩ <;> simp at h2
    exact ⟨e, f, g, k, by rw [h2]⟩
  have e0 := h 0 (by omega)
  have e1 := h 1 (by omega)
  have e2 := h 2 (by omega)
  have e3 := h 3 (by omega)
  simp only [List.getD_cons_zero, List.getD_cons_succ] at e0 e1 e2 e3
  rw [e0, e1, e2, e3]

/-- C2: on every reachable state with a free resource, scanning the
identity authorized for it claims it (owner saved), and scanning it again
takes the release path — emitting the release log lines — returning the
resource to free with no double-claim and no conflict (stated for both
resources). -/
theorem free_double_scan_toggles (s : RelayState) (hr : RelayReachable s) :
    (s.relay1On = false →
      (dispatchRelay s rfid1UID).relay1On = true ∧
      (dispatchRelay s rfid1UID).relay1HasOwner = true ∧
      (dispatchRelay s rfid1UID).relay1Owner = rfid1UID ∧
      (dispatchRelayOut (dispatchRelay s rfid1UID) rfid1UID).logs
        = ["Relay 1 is now OFF", "User has left Seat 1."] ∧
      (dispatchRelay (dispatchRelay s rfid1UID) rfid1UID).relay1On = false ∧
      (dispatchRelay (dispatchRelay s rfid1UID) rfid1UID).relay1HasOwner = false) ∧
    (s.relay2On = false →
      (dispatchRelay s rfid2UID).relay2On = true ∧
      (dispatchRelay s rfid2UID).relay2HasOwner = true ∧
      (dispatchRelay s rfid2UID).relay2Owner = rfid2UID ∧
      (dispatchRelayOut (dispatchRelay s rfid2UID) rfid2UID).logs
        = ["Relay 2 is now OFF", "User has left Seat 2."] ∧
      (dispatchRelay (dispatchRelay s rfid2UID) rfid2UID).relay2On = false ∧
      (dispatchRelay (dispatchRelay s rfid2UID) rfid2UID).relay2HasOwner = false) := by
  obtain ⟨h1, h2, h3, h4, h5, h6⟩ := relayReachable_inv s hr
  constructor
  · intro hFree
    have c1 : compareUID rfid1UID rfid1UID 4 = true := by decide
    have o1 : (s.relay1HasOwner && compareUID s.relay1Owner rfid1UID 4) = false := by
      simp [h1.trans hFree]
    have o2 : (s.relay2HasOwner && compareUID s.relay2Owner rfid1UID 4) = false := by
      cases hh : s.relay2HasOwner
      · simp
      · rw [h4 hh]; decide
    have E1 : dispatchRelay s rfid1UID
        = { s with relay1On := true, relay1HasOwner := true,
                   relay1Owner := rfid1UID, pin1 := true } := by
      rw [dispatchRelay_state, dispatchRelayOut_claim1 s rfid1UID o1 o2 c1 hFree,
          saveOwner_of_cmp1 s.relay1Owner rfid1UID h5 c1]
      rfl
    have g2 : ((dispatchRelay s rfid1UID).relay1HasOwner &&
        compareUID (dispatchRelay s rfid1UID).relay1Owner rfid1UID 4) = true := by
      rw [E1]; simp [c1]
    refine ⟨by rw [E1], by rw [E1], by rw [E1], ?_, ?_, ?_⟩
    · rw [dispatchRelayOut_release1 (dispatchRelay s rfid1UID) rfid1UID g2]
    · rw [dispatchRelay_state (dispatchRelay s rfid1UID) rfid1UID,
          dispatchRelayOut_release1 (dispatchRelay s rfid1UID) rfid1UID g2]
    · rw [dispatchRelay_state (dispatchRelay s rfid1UID) rfid1UID,
          dispatchRelayOut_release1 (dispatchRelay s rfid1UID) rfid1UID g2]
  · intro hFree
    have c2 : compareUID rfid2UID rfid2UID 4 = true := by decide
    have c1f : compareUID rfid1UID rfid2UID 4 = false := by decide
    have o1 : (s.relay1HasOwner && compareUID s.relay1Owner rfid2UID 4) = false := by
      cases hh : s.relay1HasOwner
      · simp
      · rw [h3 hh]; decide
    have o2 : (s.relay2HasOwner && compareUID s.relay2Owner rfid2UID 4) = false := by
      simp [h2.trans hFree]
    have E1 : dispatchRelay s rfid2UID
        = { s with relay2On := true, relay2HasOwner := true,
                   relay2Owner := rfid2UID, pin2 := true } := by
      rw [dispatchRelay_state, dispatchRelayOut_claim2 s rfid2UID o1 o2 c1f c2 hFree,
          saveOwner_of_cmp2 s.relay2Owner rfid2UID h6 c2]
      rfl
    have g1 : ((dispatchRelay s rfid2UID).relay1HasOwner &&
        compareUID (dispatchRelay s rfid2UID).relay1Owner rfid2UID 4) = false := by
      rw [E1]
      cases hh : s.relay1HasOwner
      · simp
      · simp only [hh]; rw [h3 hh]; decide
    have g2 : ((dispatchRelay s rfid2UID).relay2HasOwner &&
        compareUID (dispatchRelay s rfid2UID).relay2Owner rfid2UID 4) = true := by
      rw [E1]; simp [c2]
    refine ⟨by rw [E1], by rw [E1], by rw [E1], ?_, ?_, ?_⟩
    · rw [dispatchRelayOut_release2 (dispatchRelay s rfid2UID) rfid2UID g1 g2]
    · rw [dispatchRelay_state (dispatchRelay s rfid2UID) rfid2UID,
          dispatchRelayOut_release2 (dispatchRelay s rfid2UID) rfid2UID g1 g2]
    · rw [dispatchRelay_state (dispatchRelay s rfid2UID) rfid2UID,
          dispatchRelayOut_release2 (dispatchRelay s rfid2UID) rfid2UID g1 g2]

/-- Witness for C2: from the startup state, the first card claims seat 1
and the second scan releases it. -/
theorem free_double_scan_toggles_witness :
    initialRelayState.relay1On = false ∧
    (dispatchRelay initialRelayState rfid1UID).relay1On = true ∧
    (dispatchRelay (dispatchRelay initialRelayState rfid1UID) rfid1UID).relay1On
      = false := by
  refine ⟨by decide, ?_, ?_⟩
  · exact ((free_double_scan_toggles initialRelayState RelayReachable.init).1
      (by decide)).1
  · exact ((free_double_scan_toggles initialRelayState RelayReachable.init).1
      (by decide)).2.2.2.2.1

/-- C4: from any reachable state of the relay variant, scanning a UID that
is not in the authorized set changes no resource's occupied flag, ownership
flag or owner bytes; likewise for the toggle variant's LED flags. -/
theorem unauthorized_never_mutates (s : RelayState) (t : ToggleState)
    (uid : List Nat) (hr : RelayReachable s)
    (c1 : compareUID rfid1UID uid 4 = false)
    (c2 : compareUID rfid2UID uid 4 = false) :
    ((dispatchRelay s uid).relay1On = s.relay1On ∧
     (dispatchRelay s uid).relay2On = s.relay2On ∧
     (dispatchRelay s uid).relay1HasOwner = s.relay1HasOwner ∧
     (dispatchRelay s uid).relay2HasOwner = s.relay2HasOwner ∧
     (dispatchRelay s uid).relay1Owner = s.relay1Owner ∧
     (dispatchRelay s uid).relay2Owner = s.relay2Owner) ∧
    ((dispatchToggle t uid).led1On = t.led1On ∧
     (dispatchToggle t uid).led2On = t.led2On) := by
  obtain ⟨h1, h2, h3, h4, h5, h6⟩ := relayReachable_inv s hr
  have o1 : (s.relay1HasOwner && compareUID s.relay1Owner uid 4) = false := by
    cases hh : s.relay1HasOwner
    · simp
    · rw [h3 hh]; simp [c1]
  have o2 : (s.relay2HasOwner && compareUID s.relay2Owner uid 4) = false := by
    cases hh : s.relay2HasOwner
    · simp
    · rw [h4 hh]; simp [c2]
  constructor
  · by_cases hb : (s.relay1On && s.relay2On) = true
    · rw [dispatchRelay_state, dispatchRelayOut_allOccupied s uid c1 c2 o1 o2 hb]
      exact ⟨rfl, rfl, rfl, rfl, rfl, rfl⟩
    · have hb' : (s.relay1On && s.relay2On) = false := by simpa using hb
      rw [dispatchRelay_state, dispatchRelayOut_unauthFlash s uid c1 c2 o1 o2 hb']
      exact ⟨rfl, rfl, rfl, rfl, rfl, rfl⟩
  · unfold dispatchToggle dispatchToggleOut
    rw [if_neg (by simp [c1]), if_neg (by simp [c2])]
    exact ⟨rfl, rfl⟩

/-- Witness for C4: an all-zero UID is unauthorized and mutates nothing at
startup. -/
theorem unauthorized_never_mutates_witness :
    compareUID rfid1UID [0, 0, 0, 0] 4 = false ∧
    compareUID rfid2UID [0, 0, 0, 0] 4 = false ∧
    (dispatchRelay initialRelayState [0, 0, 0, 0]).relay1Owner
      = initialRelayState.relay1Owner := by
  refine ⟨by decide, by decide, ?_⟩
  exact (unauthorized_never_mutates initialRelayState initialToggleState
    [0, 0, 0, 0] RelayReachable.init (by decide) (by decide)).1.2.2.2.2.1

/-- C5: on an unauthorized scan from a reachable state of the relay
variant, the dispatcher takes exactly one of two branches — all seats
occupied: the "all occupied" log lines with no pin writes at all; some
seat free: the access-denied log line alone, with the flash-and-restore
write sequence on both pins ending at each relay's ledger-derived level. -/
theorem unauthorized_feedback_branches (s : RelayState) (uid : List Nat)
    (hr : RelayReachable s)
    (c1 : compareUID rfid1UID uid 4 = false)
    (c2 : compareUID rfid2UID uid 4 = false) :
    ((s.relay1On && s.relay2On) = true →
      (dispatchRelayOut s uid).logs
        = ["Unknown RFID tag - Access denied",
           "All seats are currently occupied."] ∧
      (dispatchRelayOut s uid).writes1 = [] ∧
      (dispatchRelayOut s uid).writes2 = [] ∧
      (dispatchRelay s uid).pin1 = s.pin1 ∧
      (dispatchRelay s uid).pin2 = s.pin2) ∧
    ((s.relay1On && s.relay2On) = false →
      (dispatchRelayOut s uid).logs = ["Unknown RFID tag - Access denied"] ∧
      (dispatchRelayOut s uid).writes1 = unauthFlashWrites s.relay1On ∧
      (dispatchRelayOut s uid).writes2 = unauthFlashWrites s.relay2On ∧
      (dispatchRelay s uid).pin1 = s.relay1On ∧
      (dispatchRelay s uid).pin2 = s.relay2On) := by
  obtain ⟨h1, h2, h3, h4, h5, h6⟩ := relayReachable_inv s hr
  have o1 : (s.relay1HasOwner && compareUID s.relay1Owner uid 4) = false := by
    cases hh : s.relay1HasOwner
    · simp
    · rw [h3 hh]; simp [c1]
  have o2 : (s.relay2HasOwner && compareUID s.relay2Owner uid 4) = false := by
    cases hh : s.relay2HasOwner
    · simp
    · rw [h4 hh]; simp [c2]
  constructor
  · intro hb
    rw [dispatchRelay_state, dispatchRelayOut_allOccupied s uid c1 c2 o1 o2 hb]
    exact ⟨rfl, rfl, rfl, rfl, rfl⟩
  · intro hb
    rw [dispatchRelay_state, dispatchRelayOut_unauthFlash s uid c1 c2 o1 o2 hb]
    exact ⟨rfl, rfl, rfl, rfl, rfl⟩

/-- Witness for C5: with both seats claimed, an unauthorized scan takes the
no-flash "all occupied" branch; at startup it takes the flash branch. -/
theorem unauthorized_feedback_branches_witness :
    ((dispatchRelay (dispatchRelay initialRelayState rfid1UID) rfid2UID).relay1On &&
     (dispatchRelay (dispatchRelay initialRelayState rfid1UID) rfid2UID).relay2On)
       = true ∧
    (dispatchRelayOut
        (dispatchRelay (dispatchRelay initialRelayState rfid1UID) rfid2UID)
        [0, 0, 0, 0]).writes1 = [] ∧
    (initialRelayState.relay1On && initialRelayState.relay2On) = false ∧
    (dispatchRelayOut initialRelayState [0, 0, 0, 0]).writes1
      = unauthFlashWrites false := by
  refine ⟨by decide, ?_, by decide, ?_⟩
  · exact ((unauthorized_feedback_branches
      (dispatchRelay (dispatchRelay initialRelayState rfid1UID) rfid2UID)
      [0, 0, 0, 0]
      (RelayReachable.step _ rfid2UID
        (RelayReachable.step _ rfid1UID RelayReachable.init))
      (by decide) (by decide)).1 (by decide)).2.2.1
  · exact ((unauthorized_feedback_branches initialRelayState [0, 0, 0, 0]
      RelayReachable.init (by decide) (by decide)).2 (by decide)).2.1

/-- C7: the ownership/occupancy invariant — `relayNHasOwner == relayNOn` —
holds at startup and is preserved by every dispatch branch from any state
satisfying it, and each resource has at most one owner: any two 4-byte
identities passing the `ownerIs` test for the same resource are equal. -/
theorem ownership_occupancy_invariant :
    (initialRelayState.relay1HasOwner = initialRelayState.relay1On ∧
     initialRelayState.relay2HasOwner = initialRelayState.relay2On) ∧
    (∀ (s : RelayState) (uid : List Nat),
      s.relay1HasOwner = s.relay1On → s.relay2HasOwner = s.relay2On →
      (dispatchRelay s uid).relay1HasOwner = (dispatchRelay s uid).relay1On ∧
      (dispatchRelay s uid).relay2HasOwner = (dispatchRelay s uid).relay2On) ∧
    (∀ (s : RelayState) (id1 id2 : List Nat),
      id1.length = 4 → id2.length = 4 →
      ownerIs1 s id1 = true → ownerIs1 s id2 = true → id1 = id2) ∧
    (∀ (s : RelayState) (id1 id2 : List Nat),
      id1.length = 4 → id2.length = 4 →
      ownerIs2 s id1 = true → ownerIs2 s id2 = true → id1 = id2) := by
  refine ⟨⟨rfl, rfl⟩, ?_, ?_, ?_⟩
  · intro s uid h1 h2
    by_cases o1 : (s.relay1HasOwner && compareUID s.relay1Owner uid 4) = true
    · rw [dispatchRelay_state, dispatchRelayOut_release1 s uid o1]
      exact ⟨rfl, h2⟩
    · have o1' : (s.relay1HasOwner && compareUID s.relay1Owner uid 4) = false := by
        simpa using o1
      by_cases o2 : (s.relay2HasOwner && compareUID s.relay2Owner uid 4) = true
      · rw [dispatchRelay_state, dispatchRelayOut_release2 s uid o1' o2]
        exact ⟨h1, rfl⟩
      · have o2' : (s.relay2HasOwner && compareUID s.relay2Owner uid 4) = false := by
          simpa using o2
        by_cases c1 : compareUID rfid1UID uid 4 = true
        · by_cases r1 : s.relay1On = true
          · rw [dispatchRelay_state, dispatchRelayOut_conflict1 s uid o1' o2' c1 r1]
            exact ⟨h1, h2⟩
          · have r1' : s.relay1On = false := by simpa using r1
            rw [dispatchRelay_state, dispatchRelayOut_claim1 s uid o1' o2' c1 r1']
            exact ⟨rfl, h2⟩
        · have c1' : compareUID rfid1UID uid 4 = false := by simpa using c1
          by_cases c2 : compareUID rfid2UID uid 4 = true
          · by_cases r2 : s.relay2On = true
            · rw [dispatchRelay_state,
                  dispatchRelayOut_conflict2 s uid o1' o2' c1' c2 r2]
              exact ⟨h1, h2⟩
            · have r2' : s.relay2On = false := by simpa using r2
              rw [dispatchRelay_state,
                  dispatchRelayOut_claim2 s uid o1' o2' c1' c2 r2']
              exact ⟨h1, rfl⟩
          · have c2' : compareUID rfid2UID uid 4 = false := by simpa using c2
            by_cases hb : (s.relay1On && s.relay2On) = true
            · rw [dispatchRelay_state,
                  dispatchRelayOut_allOccupied s uid c1' c2' o1' o2' hb]
              exact ⟨h1, h2⟩
            · have hb' : (s.relay1On && s.relay2On) = false := by simpa using hb
              rw [dispatchRelay_state,
                  dispatchRelayOut_unauthFlash s uid c1' c2' o1' o2' hb']
              exact ⟨h1, h2⟩
  · intro s id1 id2 hl1 hl2 ho1 ho2
    obtain ⟨-, hc1⟩ := Bool.and_eq_true_iff.mp ho1
    obtain ⟨-, hc2⟩ := Bool.and_eq_true_iff.mp ho2
    obtain ⟨p0, p1, p2, p3⟩ := (compareUID_four s.relay1Owner id1).mp hc1
    obtain ⟨q0, q1, q2, q3⟩ := (compareUID_four s.relay1Owner id2).mp hc2
    refine list_eq_of_length_four id1 id2 hl1 hl2 ?_
    intro i hi
    interval_cases i
    · exact p0.symm.trans q0
    · exact p1.symm.trans q1
    · exact p2.symm.trans q2
    · exact p3.symm.trans q3
  · intro s id1 id2 hl1 hl2 ho1 ho2
    obtain ⟨-, hc1⟩ := Bool.and_eq_true_iff.mp ho1
    obtain ⟨-, hc2⟩ := Bool.and_eq_true_iff.mp ho2
    obtain ⟨p0, p1, p2, p3⟩ := (compareUID_four s.relay2Owner id1).mp hc1
    obtain ⟨q0, q1, q2, q3⟩ := (compareUID_four s.relay2Owner id2).mp hc2
    refine list_eq_of_length_four id1 id2 hl1 hl2 ?_
    intro i hi
    interval_cases i
    · exact p0.symm.trans q0
    · exact p1.symm.trans q1
    · exact p2.symm.trans q2
    · exact p3.symm.trans q3

/-- Witness for C7: the invariant is preserved across a claim of seat 1,
and the ownership test pins seat 1's owner to a unique 4-byte identity. -/
theorem ownership_occupancy_invariant_witness :
    (dispatchRelay initialRelayState rfid1UID).relay1HasOwner
      = (dispatchRelay initialRelayState rfid1UID).relay1On ∧
    ownerIs1 (dispatchRelay initialRelayState rfid1UID) rfid1UID = true := by
  refine ⟨?_, by decide⟩
  exact (ownership_occupancy_invariant.2.1 initialRelayState rfid1UID
    (by decide) (by decide)).1

/-- C8: an alert raised at time `t`, ticked at any time `now` with
`now - t >= ALERT_DURATION`, is no longer active; while active the alert
view exclusively occludes the status view; a ticked overlay can only stay
active strictly within its duration; inactive overlays render the status
view. -/
theorem alert_never_outlives_duration (a : AlertOverlay) (l1 l2 : String)
    (t now : Nat) (h : ALERT_DURATION ≤ now - t) :
    (tick (raiseAlert a l1 l2 t) now).active = false ∧
    (∀ st : List String, render (raiseAlert a l1 l2 t) st = [l1, l2]) ∧
    (∀ (b : AlertOverlay) (now2 : Nat), (tick b now2).active = true →
      b.active = true ∧ now2 - b.raisedAt < ALERT_DURATION) ∧
    (∀ (b : AlertOverlay) (st : List String), b.active = false →
      render b st = st) := by
  refine ⟨?_, ?_, ?_, ?_⟩
  · unfold tick raiseAlert
    rw [if_pos ⟨rfl, h⟩]
  · intro st
    unfold render raiseAlert
    rw [if_pos rfl]
  · intro b now2 hact
    unfold tick at hact
    by_cases hc : b.active = true ∧ ALERT_DURATION ≤ now2 - b.raisedAt
    · rw [if_pos hc] at hact
      simp at hact
    · rw [if_neg hc] at hact
      refine ⟨hact, ?_⟩
      have hnle : ¬ ALERT_DURATION ≤ now2 - b.raisedAt := fun hd => hc ⟨hact, hd⟩
      omega
  · intro b st hb
    unfold render
    rw [if_neg (by simp [hb])]

/-- Witness for C8: an alert raised at 0 and ticked at 3000 ms has
expired. -/
theorem alert_never_outlives_duration_witness :
    ALERT_DURATION ≤ 3000 - 0 ∧
    (tick (raiseAlert
        { active := false, line1 := "", line2 := "", raisedAt := 0 }
        "Access denied" "Unauthorized card" 0) 3000).active = false := by
  refine ⟨by decide, ?_⟩
  exact (alert_never_outlives_duration
    { active := false, line1 := "", line2 := "", raisedAt := 0 }
    "Access denied" "Unauthorized card" 0 3000 (by decide)).1

lemma compareUID_congr (x uid uid' : List Nat)
    (h : ∀ i, i < 4 → uid.getD i 0 = uid'.getD i 0) :
    compareUID x uid 4 = compareUID x uid' 4 := by
  have e0 := h 0 (by omega)
  have e1 := h 1 (by omega)
  have e2 := h 2 (by omega)
  have e3 := h 3 (by omega)
  unfold compareUID
  rw [show List.range 4 = [0, 1, 2, 3] from rfl]
  simp only [List.all_cons, List.all_nil, Bool.and_true]
  rw [e0, e1, e2, e3]

lemma saveOwner_congr (d uid uid' : List Nat)
    (h : ∀ i, i < 4 → uid.getD i 0 = uid'.getD i 0) :
    saveOwner d uid 4 = saveOwner d uid' 4 := by
  rw [saveOwner_four, saveOwner_four,
      h 0 (by omega), h 1 (by omega), h 2 (by omega), h 3 (by omega)]

/-- Two scanned UIDs agreeing on their first four bytes produce the same
dispatch result in the relay variant: every comparison and the owner copy
read only bytes 0..3. -/
lemma dispatchRelayOut_congr (s : RelayState) (uid uid' : List Nat)
    (h : ∀ i, i < 4 → uid.getD i 0 = uid'.getD i 0) :
    dispatchRelayOut s uid = dispatchRelayOut s uid' := by
  unfold dispatchRelayOut
  rw [compareUID_congr s.relay1Owner uid uid' h,
      compareUID_congr s.relay2Owner uid uid' h,
      compareUID_congr rfid1UID uid uid' h,
      compareUID_congr rfid2UID uid uid' h,
      saveOwner_congr s.relay1Owner uid uid' h,
      saveOwner_congr s.relay2Owner uid uid' h]

/-- C9: every authorization and ownership comparison reads exactly the
first four bytes of the scanned UID: a tag with a longer UID whose first
four bytes equal an authorized identity is dispatched (state, pin writes
and logs) exactly as that identity, in every state. -/
theorem first_four_bytes_classify (s : RelayState) (uid : List Nat)
    (_hlen : 4 < uid.length) :
    (uid.take 4 = rfid1UID →
      dispatchRelayOut s uid = dispatchRelayOut s rfid1UID ∧
      dispatchRelay s uid = dispatchRelay s rfid1UID) ∧
    (uid.take 4 = rfid2UID →
      dispatchRelayOut s uid = dispatchRelayOut s rfid2UID ∧
      dispatchRelay s uid = dispatchRelay s rfid2UID) := by
  constructor
  · intro ht
    have h : ∀ i, i < 4 → uid.getD i 0 = rfid1UID.getD i 0 := by
      intro i hi
      rw [← ht, getD_take uid 4 i hi]
    have e := dispatchRelayOut_congr s uid rfid1UID h
    exact ⟨e, by rw [dispatchRelay_state, dispatchRelay_state, e]⟩
  · intro ht
    have h : ∀ i, i < 4 → uid.getD i 0 = rfid2UID.getD i 0 := by
      intro i hi
      rw [← ht, getD_take uid 4 i hi]
    have e := dispatchRelayOut_congr s uid rfid2UID h
    exact ⟨e, by rw [dispatchRelay_state, dispatchRelay_state, e]⟩

/-- Witness for C9: a 7-byte UID starting with the first card's bytes is
treated exactly as the first card at startup. -/
theorem first_four_bytes_classify_witness :
    4 < (rfid1UID ++ [170, 187, 204]).length ∧
    (rfid1UID ++ [170, 187, 204]).take 4 = rfid1UID ∧
    dispatchRelay initialRelayState (rfid1UID ++ [170, 187, 204])
      = dispatchRelay initialRelayState rfid1UID := by
  refine ⟨by decide, by decide, ?_⟩
  exact ((first_four_bytes_classify initialRelayState
    (rfid1UID ++ [170, 187, 204]) (by decide)).1 (by decide)).2

/-- C10: in every reachable state of the relay variant, an owned relay's
owner bytes equal its statically authorized UID, and consequently neither
"already occupied" conflict branch guard can be satisfied by any scanned
UID. -/
theorem owners_are_authorized (s : RelayState) (uid : List Nat)
    (hr : RelayReachable s) :
    (s.relay1HasOwner = true → s.relay1Owner = rfid1UID) ∧
    (s.relay2HasOwner = true → s.relay2Owner = rfid2UID) ∧
    conflictGuard1 s uid = false ∧
    conflictGuard2 s uid = false := by
  obtain ⟨h1, h2, h3, h4, h5, h6⟩ := relayReachable_inv s hr
  refine ⟨h3, h4, ?_, ?_⟩
  · unfold conflictGuard1
    by_cases c1 : compareUID rfid1UID uid 4 = true
    · by_cases hOn : s.relay1On = true
      · have hho : s.relay1HasOwner = true := h1.trans hOn
        simp [hho, h3 hho, c1]
      · have hOn' : s.relay1On = false := by simpa using hOn
        simp [hOn']
    · have c1' : compareUID rfid1UID uid 4 = false := by simpa using c1
      simp [c1']
  · unfold conflictGuard2
    by_cases c2 : compareUID rfid2UID uid 4 = true
    · by_cases hOn : s.relay2On = true
      · have hho : s.relay2HasOwner = true := h2.trans hOn
        simp [hho, h4 hho, c2]
      · have hOn' : s.relay2On = false := by simpa using hOn
        simp [hOn']
    · have c2' : compareUID rfid2UID uid 4 = false := by simpa using c2
      simp [c2']

/-- Witness for C10: after claiming seat 1 with the first card, the stored
owner is the authorized UID and the conflict guard stays false even for a
scan matching `rfid1UID` while relay 1 is on. -/
theorem owners_are_authorized_witness :
    (dispatchRelay initialRelayState rfid1UID).relay1HasOwner = true ∧
    (dispatchRelay initialRelayState rfid1UID).relay1Owner = rfid1UID ∧
    conflictGuard1 (dispatchRelay initialRelayState rfid1UID) rfid1UID = false := by
  refine ⟨by decide, ?_, ?_⟩
  · exact (owners_are_authorized (dispatchRelay initialRelayState rfid1UID)
      rfid1UID (RelayReachable.step initialRelayState rfid1UID
        RelayReachable.init)).1 (by decide)
  · exact (owners_are_authorized (dispatchRelay initialRelayState rfid1UID)
      rfid1UID (RelayReachable.step initialRelayState rfid1UID
        RelayReachable.init)).2.2.1
